import Mathlib

/-!
Verification development for the real-time voice-conversation engine
(session registry, transcript handling, interruption control, outbound
audio framing, and the µ-law audio codec pipeline).

The definitions below are shallow embeddings of the JavaScript source:
`tts_sarvam.js` (format detection, µ-law encoding) and the
`MediaStreamHandler` / `DeepgramBrowserHandler` session code.  JavaScript
numbers are modelled as `Int` (samples) or `Nat` (bytes); byte buffers as
`List Nat` of values below 256; the JS `Map` of sessions as an
association list with insert-or-replace semantics.  Effects on the
transport (WebSocket sends) are modelled as an explicit output list of
messages.  Writes performed by concurrently scheduled handlers of the
same session are modelled by oracle parameters (`flagAt`, `postTTSFlag`)
giving the value a re-read of the mutable flag observes at each check.
-/

namespace Sarvamziya

/-! ## JavaScript arithmetic helpers -/

/-- JS `x >> n` (32-bit arithmetic shift right) for the value ranges used
here: floor division by `2 ^ n`. -/
def jsShr (x : Int) (n : Nat) : Int := Int.fdiv x (2 ^ n)

/-- JS `x & m` for a mask `m < 256`: reduce to the low 8 bits of the
two's-complement representation and mask. -/
def jsAnd8 (x : Int) (m : Nat) : Nat := (Int.emod x 256).toNat &&& m

/-! ## µ-law codec (`tts_sarvam.js`, `encodeMuLaw`)

Embedding of the source's `encodeMuLaw`.  The source also contains a
first `for` loop computing a provisional exponent, but its result is
unconditionally overwritten by the explicit comparison chain that
follows ("let's use the explicit check logic"), so only the chain is
semantically relevant and only it is embedded. -/

/-- `encodeMuLaw` from `tts_sarvam.js`: sign from `(sample >> 8) & 0x80`,
negate to magnitude, clip at 32635, add bias 0x84, pick the exponent by
the source's comparison chain, mantissa `(s >> (exp+3)) & 0x0F`, pack
and bitwise-invert (`~x & 0xFF` equals `255 ^^^ x` for `x ≤ 255`). -/
def encodeMuLaw (sample0 : Int) : Nat :=
  let sign : Nat := jsAnd8 (jsShr sample0 8) 0x80
  let s1 : Int := if sign ≠ 0 then -sample0 else sample0
  let s2 : Int := if s1 > 32635 then 32635 else s1
  let s3 : Int := s2 + 0x84
  let exponent : Nat :=
    if s3 > 0x7FFF then 7
    else if s3 > 0x3FFF then 6
    else if s3 > 0x1FFF then 5
    else if s3 > 0x0FFF then 4
    else if s3 > 0x07FF then 3
    else if s3 > 0x03FF then 2
    else if s3 > 0x01FF then 1
    else 0
  let mantissa : Nat := (Int.toNat s3 >>> (exponent + 3)) &&& 0x0F
  255 ^^^ (sign ||| (exponent <<< 4) ||| mantissa)

/-- Spec-side reference: the standard telephony µ-law encoder ("standard
telephony companding law" of the spec), identical to the source's
`encodeMuLaw` except that the segment/exponent is selected by the
standard thresholds (biased magnitude in `[2^(e+7), 2^(e+8))` gets
exponent `e`, as in the classical `seg_end` table
`0xFF, 0x1FF, ..., 0x3FFF, 0x7FFF`). -/
def muLawEncodeSpec (sample0 : Int) : Nat :=
  let sign : Nat := jsAnd8 (jsShr sample0 8) 0x80
  let s1 : Int := if sign ≠ 0 then -sample0 else sample0
  let s2 : Int := if s1 > 32635 then 32635 else s1
  let s3 : Int := s2 + 0x84
  let exponent : Nat :=
    if s3 > 0x3FFF then 7
    else if s3 > 0x1FFF then 6
    else if s3 > 0x0FFF then 5
    else if s3 > 0x07FF then 4
    else if s3 > 0x03FF then 3
    else if s3 > 0x01FF then 2
    else if s3 > 0x00FF then 1
    else 0
  let mantissa : Nat := (Int.toNat s3 >>> (exponent + 3)) &&& 0x0F
  255 ^^^ (sign ||| (exponent <<< 4) ||| mantissa)

/-- Spec-side reference: the standard µ-law decoder, inverse of the
standard law: un-invert the byte, split sign/exponent/mantissa, rebuild
the biased midpoint `((m << 3) + 0x84) << e` and remove the bias. -/
def muLawDecodeSpec (u : Nat) : Int :=
  let v : Nat := 255 ^^^ (u % 256)
  let sign : Nat := v &&& 0x80
  let e : Nat := (v >>> 4) &&& 0x07
  let m : Nat := v &&& 0x0F
  let t : Int := (((m <<< 3) + 0x84) <<< e : Nat)
  if sign ≠ 0 then 0x84 - t else t - 0x84

/-- The standard segment (exponent) of a linear sample: clip its
magnitude to 32635, add the bias 0x84 and select by the standard
thresholds. -/
def muLawSegment (sample : Int) : Nat :=
  let mag : Int := if sample < 0 then -sample else sample
  let mag : Int := if mag > 32635 then 32635 else mag
  let s3 : Int := mag + 0x84
  if s3 > 0x3FFF then 7
  else if s3 > 0x1FFF then 6
  else if s3 > 0x0FFF then 5
  else if s3 > 0x07FF then 4
  else if s3 > 0x03FF then 3
  else if s3 > 0x01FF then 2
  else if s3 > 0x00FF then 1
  else 0

/-- The companding law's quantization error bound for a sample: half of
its segment's step size `2 ^ (segment + 3)`. -/
def muLawQuantBound (sample : Int) : Int := (2 : Int) ^ (muLawSegment sample + 2)

/-! ## Session data model (`MediaStreamHandler`) -/

/-- JS `!t?.trim()` truthiness check: a transcript is blank iff every
character is whitespace (equivalently, trimming leaves the empty
string).  Stated over the character list so it evaluates by `decide`. -/
def jsBlank (t : String) : Bool := t.data.all (fun c => c.isWhitespace)

/-- One conversation turn, `{ role, parts: [{ text }] }` in the source
(the `parts` array always holds exactly one text, so it is collapsed to
a single field).  The source uses role strings `"user"` and `"model"`
(the agent). -/
structure Turn where
  role : String
  text : String
deriving DecidableEq, Repr

/-- A message the handler emits on the Twilio media-stream WebSocket:
an audio `media` frame (one base64 chunk), a `mark` event, or the
`clear` control message (whose `streamSid` field is sent even when
still null). -/
inductive TwilioMsg where
  | media (streamSid : String) (payload : List Char)
  | mark (streamSid : String) (name : String)
  | clear (streamSid : Option String)
deriving DecidableEq, Repr

/-- Recognizer for audio `media` frames among emitted messages. -/
def TwilioMsg.isMedia : TwilioMsg → Bool
  | .media _ _ => true
  | _ => false

/-- Recognizer for `mark` completion messages among emitted messages. -/
def TwilioMsg.isMark : TwilioMsg → Bool
  | .mark _ _ => true
  | _ => false

/-- Recognizer for `clear` control messages among emitted messages. -/
def TwilioMsg.isClear : TwilioMsg → Bool
  | .clear _ => true
  | _ => false

/-- Per-call session state created by `MediaStreamHandler.createSession`.
`sttStream` is modelled by the boolean `hasSttStream` (whether the
recognition-stream handle is non-null), the silence timer by whether a
timer is pending, and `ws` (the transport handle) by the emitted-message
lists of the operations. -/
structure Session where
  callId : String
  context : List Turn
  hasSttStream : Bool
  agentPrompt : String
  agentVoiceId : String
  streamSid : Option String
  isReady : Bool
  audioQueue : List (List Nat)
  isAISpeaking : Bool
  currentAudioChunks : List (List Nat)
  userSpeechDetected : Bool
  interimTranscript : String
  silenceTimer : Bool
deriving DecidableEq, Repr

/-- The session object built by `createSession(callId, agentPrompt,
agentVoiceId, ws)` (lines 21–44): fresh flags and buffers, voice id
defaulted when the argument is absent (`agentVoiceId || "21m00…"`). -/
def freshSession (callId agentPrompt : String) (agentVoiceId : Option String) : Session :=
  { callId := callId
    context := []
    hasSttStream := false
    agentPrompt := agentPrompt
    agentVoiceId := agentVoiceId.getD "21m00Tcm4TlvDq8ikWAM"
    streamSid := none
    isReady := false
    audioQueue := []
    isAISpeaking := false
    currentAudioChunks := []
    userSpeechDetected := false
    interimTranscript := ""
    silenceTimer := false }

/-! ## Session registry (module-level `sessions` Map) -/

/-- The registry: a JS `Map` from call id to session, modelled as an
association list in insertion order. -/
def SessionReg := List (String × Session)

/-- JS `Map.prototype.set`: replace the value at an existing key in
place, otherwise append the new entry. -/
def mapSet (k : String) (v : Session) : SessionReg → SessionReg
  | [] => [(k, v)]
  | (k', v') :: rest =>
      if k' = k then (k, v) :: rest else (k', v') :: mapSet k v rest

/-- JS `Map.prototype.get`: the value at the key, if present. -/
def mapGet (k : String) : SessionReg → Option Session
  | [] => none
  | (k', v') :: rest => if k' = k then some v' else mapGet k rest

/-- `MediaStreamHandler.createSession`: builds the fresh session and
unconditionally `sessions.set(callId, session)`s it — there is no
duplicate check in the source, so an existing entry for `callId` is
replaced. -/
def createSession (reg : SessionReg) (callId agentPrompt : String)
    (agentVoiceId : Option String) : Session × SessionReg :=
  let s := freshSession callId agentPrompt agentVoiceId
  (s, mapSet callId s reg)

/-! ## Interruption and transcript handlers -/

/-- `MediaStreamHandler.handleInterruption` (lines 256–275): stop
playback (`isAISpeaking := false`), discard the buffered chunks, send
one `clear` control message, and mark the user as speaking. -/
def handleInterruption (s : Session) : Session × List TwilioMsg :=
  ({ s with isAISpeaking := false
            currentAudioChunks := []
            userSpeechDetected := true },
   [TwilioMsg.clear s.streamSid])

/-- The interim (`!is_final`) branch of the `Transcript` handler
(lines 137–152): blank transcripts are dropped (`!transcript?.trim()`),
otherwise `interimTranscript` is updated and, if the agent is speaking
and the transcript is longer than the significance threshold 3,
`handleInterruption` runs. -/
def handleTranscriptInterim (s : Session) (t : String) : Session × List TwilioMsg :=
  if jsBlank t then (s, [])
  else
    let s := { s with interimTranscript := t }
    if s.isAISpeaking ∧ t.length > 3 then handleInterruption s else (s, [])

/-- The `media` branch of the WebSocket message handler (lines 210–220):
a media message whose decoded payload is non-empty is forwarded to the
recognition stream and sets `userSpeechDetected := true`. -/
def handleMediaEvent (s : Session) (payload : List Nat) : Session :=
  if s.hasSttStream ∧ payload ≠ [] then { s with userSpeechDetected := true } else s

/-- The `mark` branch of the WebSocket message handler (lines 226–235):
the `audio_complete` echo ends the speaking state. -/
def handleMarkEvent (s : Session) (name : String) : Session :=
  if name = "audio_complete" then
    { s with isAISpeaking := false, currentAudioChunks := [] }
  else s

/-! ## Outbound framer (`sendAudioToTwilio`) -/

/-- The base64 alphabet used by `Buffer.prototype.toString("base64")`. -/
def base64Table : List Char :=
  "ABCDEFGHIJKLMNOPQRSTUVWXYZabcdefghijklmnopqrstuvwxyz0123456789+/".toList

/-- Character of the base64 alphabet at a 6-bit index. -/
def b64Char (n : Nat) : Char := base64Table.getD n 'A'

/-- `Buffer.prototype.toString("base64")`: standard base64 with `=`
padding, over a byte list. -/
def base64Encode : List Nat → List Char
  | [] => []
  | [a] =>
      [b64Char (a >>> 2), b64Char ((a &&& 3) <<< 4), '=', '=']
  | [a, b] =>
      [b64Char (a >>> 2), b64Char (((a &&& 3) <<< 4) ||| (b >>> 4)),
       b64Char ((b &&& 15) <<< 2), '=']
  | a :: b :: c :: rest =>
      b64Char (a >>> 2) :: b64Char (((a &&& 3) <<< 4) ||| (b >>> 4)) ::
      b64Char (((b &&& 15) <<< 2) ||| (c >>> 6)) :: b64Char (c &&& 63) ::
      base64Encode rest

/-- Auxiliary for `chunksOf`: `chunksOfAux m xs i` returns the first
`i` elements of `xs` paired with the rest of `xs` cut into slices of
size `m + 1` (structural recursion, so it evaluates by `decide`). -/
def chunksOfAux (m : Nat) : List Char → Nat → List Char × List (List Char)
  | [], _ => ([], [])
  | x :: xs, 0 =>
      let r := chunksOfAux m xs m
      ([], (x :: r.1) :: r.2)
  | x :: xs, i + 1 =>
      let r := chunksOfAux m xs i
      (x :: r.1, r.2)

/-- Successive slices of size `n` (`base64Audio.slice(i, i + chunkSize)`
for `i = 0, n, 2n, …`). -/
def chunksOf (n : Nat) (l : List Char) : List (List Char) :=
  (chunksOfAux (n - 1) l 0).2

/-- The frame-send loop of `sendAudioToTwilio` (lines 393–419): before
sending chunk `i` it re-reads `session.userSpeechDetected` (the oracle
`flagAt i`); if set, it aborts with no further sends and no completion
mark (`false`); otherwise it sends the chunk and continues.  When the
chunks are exhausted the `audio_complete` mark is sent (`true`). -/
def sendLoop (flagAt : Nat → Bool) (sid : String) :
    List (List Char) → Nat → List TwilioMsg × Bool
  | [], _ => ([TwilioMsg.mark sid "audio_complete"], true)
  | c :: rest, i =>
      if flagAt i then ([], false)
      else
        let r := sendLoop flagAt sid rest (i + 1)
        (TwilioMsg.media sid c :: r.1, r.2)

/-- `MediaStreamHandler.sendAudioToTwilio` (lines 382–426): if the
session is not ready or has no stream sid the buffer is queued;
otherwise the base64 encoding is sliced into 214-character chunks and
sent by the interruption-checking loop; an abort also resets
`isAISpeaking`. -/
def sendAudioToTwilio (flagAt : Nat → Bool) (s : Session) (buf : List Nat) :
    Session × List TwilioMsg :=
  match s.streamSid with
  | none => ({ s with audioQueue := s.audioQueue ++ [buf] }, [])
  | some sid =>
      if s.isReady then
        let chunks := chunksOf 214 (base64Encode buf)
        let r := sendLoop flagAt sid chunks 0
        if r.2 then (s, r.1) else ({ s with isAISpeaking := false }, r.1)
      else ({ s with audioQueue := s.audioQueue ++ [buf] }, [])

/-! ## Conversation flow (`handleUserMessage`, `speakWithInterruption`) -/

/-- The fixed apology reply substituted by `MediaStreamHandler.callLLM`
when the generation provider fails. -/
def apologyText : String := "I apologize, I'm having trouble processing that."

/-- `MediaStreamHandler.callLLM` (lines 322–334) with the outcome of the
provider call made explicit: the generated text on success, the fixed
apology on any failure. -/
def callLLM (gen : Except String String) : String :=
  match gen with
  | .ok t => t
  | .error _ => apologyText

/-- `appendToContext(session, text, role)` (lines 428–431). -/
def appendToContext (s : Session) (text role : String) : Session :=
  { s with context := s.context ++ [⟨role, text⟩] }

/-- The first two statements of `speakWithInterruption` (lines 296–298):
playback of a reply begins by setting `isAISpeaking := true` and
resetting `userSpeechDetected := false`. -/
def beginSpeaking (s : Session) : Session :=
  { s with isAISpeaking := true, userSpeechDetected := false }

/-- `MediaStreamHandler.speakWithInterruption` (lines 293–320).  `tts`
is the synthesis result (`null` on failure); `postTTSFlag` is the value
`session.userSpeechDetected` holds when re-read after the synthesis
await (concurrent media events may have set it); `flagAt` is the
per-chunk re-read oracle of the send loop. -/
def speakWithInterruption (s : Session) (tts : Option (List Nat))
    (postTTSFlag : Bool) (flagAt : Nat → Bool) : Session × List TwilioMsg :=
  let s1 := beginSpeaking s
  match tts with
  | none => ({ s1 with isAISpeaking := false }, [])
  | some buf =>
      let s2 := { s1 with currentAudioChunks := s1.currentAudioChunks ++ [buf]
                          userSpeechDetected := postTTSFlag }
      if s2.userSpeechDetected then ({ s2 with isAISpeaking := false }, [])
      else sendAudioToTwilio flagAt s2 buf

/-- `MediaStreamHandler.handleUserMessage` (lines 278–290): generate the
reply (apology on failure), append it as the agent (`"model"`) turn,
then speak it. -/
def handleUserMessage (s : Session) (gen : Except String String)
    (tts : Option (List Nat)) (postTTSFlag : Bool) (flagAt : Nat → Bool) :
    Session × List TwilioMsg :=
  let reply := callLLM gen
  let s := appendToContext s reply "model"
  speakWithInterruption s tts postTTSFlag flagAt

/-- The final (`is_final`) branch of the `Transcript` handler
(lines 137–166): blank transcripts are dropped, otherwise the pending
silence timer is cleared, the transcript is appended as a user turn and
`handleUserMessage` runs. -/
def processFinalTranscript (s : Session) (t : String) (gen : Except String String)
    (tts : Option (List Nat)) (postTTSFlag : Bool) (flagAt : Nat → Bool) :
    Session × List TwilioMsg :=
  if jsBlank t then (s, [])
  else
    let s := { s with silenceTimer := false }
    let s := appendToContext s t "user"
    handleUserMessage s gen tts postTTSFlag flagAt

/-! ## In-flight generation accounting

The `Transcript` handler is an async callback: at `await this.callLLM`
inside `handleUserMessage` the handler suspends with the generation
request outstanding, and further transcript events for the same session
run meanwhile.  `pendingGen` is a ghost counter of generation requests
started and not yet resolved: the final-transcript branch increments it
when it reaches the `await` (the source consults no in-flight state
before doing so), and a resolution decrements it and appends the agent
turn. -/
structure OrchState where
  session : Session
  pendingGen : Nat
deriving DecidableEq, Repr

/-- Processing of a final transcript up to its first suspension point
(the `await this.callLLM` reached via `handleUserMessage`): clear the
silence timer, append the user turn, start a generation request. -/
def onFinalTranscript (st : OrchState) (t : String) : OrchState :=
  if jsBlank t then st
  else
    let s := { st.session with silenceTimer := false }
    let s := appendToContext s t "user"
    { session := s, pendingGen := st.pendingGen + 1 }

/-- Resolution of an outstanding generation request: the reply is
appended as the agent turn and the request is no longer in flight. -/
def onGenResolve (st : OrchState) (reply : String) : OrchState :=
  { session := appendToContext st.session reply "model"
    pendingGen := st.pendingGen - 1 }

/-! ## Audio format detection (`tts_sarvam.js`, `detectAudioFormat`) -/

/-- The four return values of `detectAudioFormat`. -/
inductive AudioFormat where
  | mp3 | wav | s16le | unknown
deriving DecidableEq, Repr

/-- `detectAudioFormat(buffer)` (lines 98–116): buffers shorter than 4
bytes are `unknown`; otherwise ID3 or MPEG frame sync give `mp3`, a
RIFF magic gives `wav`, and anything else is `s16le`. -/
def detectAudioFormat (b : List Nat) : AudioFormat :=
  if b.length < 4 then .unknown
  else
    let b0 := b.getD 0 0
    let b1 := b.getD 1 0
    let b2 := b.getD 2 0
    let b3 := b.getD 3 0
    if b0 = 0x49 ∧ b1 = 0x44 ∧ b2 = 0x33 then .mp3
    else if b0 = 0xFF ∧ b1 &&& 0xE0 = 0xE0 then .mp3
    else if b0 = 0x52 ∧ b1 = 0x49 ∧ b2 = 0x46 ∧ b3 = 0x46 then .wav
    else .s16le

/-- The three pipeline outcomes a detected format selects in
`convertToUlaw`: the mp3/ffmpeg path, the WAV-container path
(`wav.fromBuffer`), or the raw-PCM fallback (`wav.fromScratch`). -/
inductive PipelineOutcome where
  | compressed | container | rawPCM
deriving DecidableEq, Repr

/-- How `convertToUlaw` (lines 118–203) dispatches on the detected
format: `mp3` goes to the compressed/ffmpeg path, `wav` to the
container path, and both `s16le` and `unknown` to the raw-PCM
fallback. -/
def formatOutcome : AudioFormat → PipelineOutcome
  | .mp3 => .compressed
  | .wav => .container
  | .s16le => .rawPCM
  | .unknown => .rawPCM

/-- The raw-PCM fallback parameters `convertToUlaw` assumes for a
format, as (sample rate, channels, bit depth): `wav.fromScratch(1,
24000, '16', …)` and the ffmpeg arguments `-f s16le -ar 24000 -ac 1`
both use 24 kHz mono 16-bit for `s16le`/`unknown`. -/
def rawFallbackParams : AudioFormat → Option (Nat × Nat × Nat)
  | .s16le => some (24000, 1, 16)
  | .unknown => some (24000, 1, 16)
  | _ => none

/-- Whether a buffer carries a signature `detectAudioFormat` recognizes
(long enough, and one of ID3, MPEG frame sync, RIFF). -/
def hasRecognizedSignature (b : List Nat) : Bool :=
  decide (¬ b.length < 4 ∧
    ((b.getD 0 0 = 0x49 ∧ b.getD 1 0 = 0x44 ∧ b.getD 2 0 = 0x33) ∨
     (b.getD 0 0 = 0xFF ∧ b.getD 1 0 &&& 0xE0 = 0xE0) ∨
     (b.getD 0 0 = 0x52 ∧ b.getD 1 0 = 0x49 ∧ b.getD 2 0 = 0x46 ∧ b.getD 3 0 = 0x46)))

/-! ## Concrete states used as claim inputs -/

/-- Session and ghost orchestration state used to exercise the
final-transcript path on concrete inputs. -/
def orchStart : OrchState :=
  { session := freshSession "CA7001" "You are a helpful AI assistant." none
    pendingGen := 0 }

/-- An existing session with some accumulated conversation state, for
exercising `createSession` on an already-registered call id. -/
def sessionOldEx : Session :=
  { freshSession "c1" "old prompt" none with
      context := [⟨"user", "hi"⟩], isReady := true }

/-- A registry already containing call id `"c1"`. -/
def regEx : SessionReg := [("c1", sessionOldEx)]

/-- A session in the armed state: the agent is speaking, with a buffered
outbound chunk. -/
def sessionArmedEx : Session :=
  { freshSession "CA7002" "prompt" none with
      isAISpeaking := true, isReady := true, streamSid := some "MS7002",
      currentAudioChunks := [[1, 2]] }

/-- The session just after an interruption trip. -/
def sessionTrippedEx : Session := (handleTranscriptInterim sessionArmedEx "wait!").1

/-- Concrete ready session for exercising the framer. -/
def sessionReadyEx : Session :=
  { freshSession "CA7003" "prompt" none with isReady := true, streamSid := some "MS7003" }

/-- A ready session with empty context for the final-transcript
scenario. -/
def sessionC8Ex : Session :=
  { freshSession "CA7008" "prompt" none with isReady := true, streamSid := some "MS7008" }

/-- A ready session with a recognition stream attached, for the C10
witness. -/
def sessionMediaEx : Session :=
  { freshSession "CA7010" "prompt" none with
      isReady := true, streamSid := some "MS7010", hasSttStream := true }

/-! ## Helper lemmas -/

/-- `chunksOfAux` cuts off the first `i` elements and chunks the
remainder. -/
theorem chunksOfAux_spec (m : Nat) :
    ∀ (xs : List Char) (i : Nat),
      chunksOfAux m xs i = (xs.take i, (chunksOfAux m (xs.drop i) 0).2) := by
  intro xs
  induction xs with
  | nil => intro i; simp [chunksOfAux]
  | cons x xs ih =>
      intro i
      match i with
      | 0 => rfl
      | i + 1 => simp [chunksOfAux, ih i]

/-- The slicing equation of `chunksOf`: the first slice is the first
`n` characters, the rest is the chunking of the remainder — exactly the
source's `slice(i, i + chunkSize)` loop. -/
theorem chunksOf_cons (n : Nat) (x : Char) (xs : List Char) :
    chunksOf n (x :: xs) =
      (x :: xs.take (n - 1)) :: chunksOf n (xs.drop (n - 1)) := by
  show (chunksOfAux (n - 1) (x :: xs) 0).2 = _
  rw [chunksOfAux, chunksOfAux_spec (n - 1) xs (n - 1)]
  rfl

/-- Structure of the send loop: there is a cut index `k` (the first
tripped check, or the chunk count if none trips) such that exactly the
first `k` chunks are emitted, the completion mark is emitted iff all
chunks went out, and the checks before the emitted chunks all read
`false`. -/
theorem sendLoop_spec (flagAt : Nat → Bool) (sid : String) :
    ∀ (chunks : List (List Char)) (idx : Nat), ∃ k,
      k ≤ chunks.length ∧
      (∀ j, j < k → flagAt (idx + j) = false) ∧
      (k = chunks.length ∨ flagAt (idx + k) = true) ∧
      (sendLoop flagAt sid chunks idx).1 =
        (chunks.take k).map (TwilioMsg.media sid) ++
          (if k = chunks.length then [TwilioMsg.mark sid "audio_complete"] else []) ∧
      ((sendLoop flagAt sid chunks idx).2 = true ↔ k = chunks.length) := by
  intro chunks
  induction chunks with
  | nil =>
      intro idx
      exact ⟨0, by simp [sendLoop]⟩
  | cons c rest ih =>
      intro idx
      by_cases h : flagAt idx = true
      · refine ⟨0, by simp, by simp, Or.inr (by simpa using h), ?_, ?_⟩
        · simp [sendLoop, h]
        · simp [sendLoop, h]
      · obtain ⟨k, hk, hflags, hend, hmsgs, hdone⟩ := ih (idx + 1)
        have hfalse : flagAt idx = false := by
          cases hf : flagAt idx with
          | false => rfl
          | true => exact absurd hf h
        refine ⟨k + 1, by simpa using Nat.succ_le_succ hk, ?_, ?_, ?_, ?_⟩
        · intro j hj
          match j with
          | 0 => simpa using hfalse
          | j' + 1 =>
              have := hflags j' (Nat.lt_of_succ_lt_succ hj)
              simpa [Nat.add_comm, Nat.add_left_comm, Nat.add_assoc] using this
        · rcases hend with he | hf
          · exact Or.inl (by simp [he])
          · refine Or.inr ?_
            simpa [Nat.add_comm, Nat.add_left_comm, Nat.add_assoc] using hf
        · simp only [sendLoop, hfalse]
          simp [hmsgs, List.take_succ_cons, Nat.succ_inj]
        · simp only [sendLoop, hfalse]
          simpa [Nat.succ_inj] using hdone

/-- With no interruption observed at any check, the loop emits every
chunk followed by the completion mark. -/
theorem sendLoop_all_false (sid : String) :
    ∀ (chunks : List (List Char)) (idx : Nat),
      sendLoop (fun _ => false) sid chunks idx =
        (chunks.map (TwilioMsg.media sid) ++ [TwilioMsg.mark sid "audio_complete"], true) := by
  intro chunks
  induction chunks with
  | nil => intro idx; simp [sendLoop]
  | cons c rest ih => intro idx; simp [sendLoop, ih]

/-- Base64 of a non-empty byte list is non-empty. -/
theorem base64Encode_ne_nil (l : List Nat) (h : l ≠ []) : base64Encode l ≠ [] := by
  match l with
  | [] => exact absurd rfl h
  | [a] => simp [base64Encode]
  | [a, b] => simp [base64Encode]
  | a :: b :: c :: rest => simp [base64Encode]

/-- Chunking a non-empty list yields at least one chunk. -/
theorem chunksOf_ne_nil (n : Nat) (l : List Char) (h : l ≠ []) : chunksOf n l ≠ [] := by
  match l with
  | [] => exact absurd rfl h
  | c :: rest => simp [chunksOf_cons]

/-- The framer never touches the conversation context. -/
theorem sendAudioToTwilio_context (flagAt : Nat → Bool) (s : Session) (buf : List Nat) :
    (sendAudioToTwilio flagAt s buf).1.context = s.context := by
  unfold sendAudioToTwilio
  match hs : s.streamSid with
  | none => simp
  | some sid =>
      by_cases hr : s.isReady
      · simp only [hr, if_true]
        split <;> simp
      · simp [hr]

/-- Speaking a reply never touches the conversation context. -/
theorem speakWithInterruption_context (s : Session) (tts : Option (List Nat))
    (postTTSFlag : Bool) (flagAt : Nat → Bool) :
    (speakWithInterruption s tts postTTSFlag flagAt).1.context = s.context := by
  unfold speakWithInterruption
  match tts with
  | none => simp [beginSpeaking]
  | some buf =>
      by_cases hp : postTTSFlag <;>
        simp [hp, beginSpeaking, sendAudioToTwilio_context]

/-- `mapGet` after `mapSet` at the same key returns the new value. -/
theorem mapGet_mapSet (k : String) (v : Session) :
    ∀ reg : SessionReg, mapGet k (mapSet k v reg) = some v := by
  intro reg
  induction reg with
  | nil => simp [mapSet, mapGet]
  | cons e rest ih =>
      obtain ⟨k', v'⟩ := e
      by_cases h : k' = k
      · simp [mapSet, mapGet, h]
      · simp [mapSet, mapGet, h, ih]

/-! ## Claim C4 -/

/-- C4: the sample-by-sample companding encoder does not compute the
standard telephony µ-law byte.  Its exponent chain is shifted one
threshold up (`> 0x7FFF → 7, > 0x3FFF → 6, …` instead of the standard
`> 0x3FFF → 7, > 0x1FFF → 6, …`), so at input 16252 (biased magnitude
0x4000) the source yields byte 0x9F where the standard algorithm,
differing only in the threshold chain, yields 0x8F. -/
theorem encodeMuLaw_not_standard :
    encodeMuLaw 16252 = 0x9F ∧ muLawEncodeSpec 16252 = 0x8F ∧
    encodeMuLaw 16252 ≠ muLawEncodeSpec 16252 := by decide

/-! ## Claim C5 -/

/-- C5: the encode/decode round trip does not stay within the companding
law's quantization error bound.  For the in-range sample 24444 (standard
segment 7, half-step bound 512) the source encoder produces 0x9F, which
the standard decoder maps back to 8316 — an error of 16128, far beyond
the bound. -/
theorem muLaw_roundtrip_exceeds_bound :
    muLawDecodeSpec (encodeMuLaw 24444) = 8316 ∧
    muLawQuantBound 24444 = 512 ∧
    muLawQuantBound 24444 < (24444 : Int) - muLawDecodeSpec (encodeMuLaw 24444) := by decide

/-! ## Claim C1 -/

/-- C1 counterexample: two final transcripts for the same session,
the second arriving while the first's generation call is still
unresolved (no `onGenResolve` in between), leave two generation
requests in flight — the source's final-transcript handler consults no
in-flight state before starting another `callLLM`. -/
theorem onFinalTranscript_overlap :
    ¬ (onFinalTranscript (onFinalTranscript orchStart "hello") "are you there").pendingGen ≤ 1 := by
  decide

/-- C1 (amended): a non-blank final transcript always starts a new
generation request immediately, regardless of how many are already in
flight; overlapping generation/synthesis cycles for one session are
therefore possible. -/
theorem onFinalTranscript_always_starts (st : OrchState) (t : String)
    (h : jsBlank t = false) :
    (onFinalTranscript st t).pendingGen = st.pendingGen + 1 := by
  simp [onFinalTranscript, h]

/-- Witness for the amended C1 theorem at a concrete state and
transcript. -/
theorem onFinalTranscript_always_starts_witness :
    jsBlank "hello" = false ∧
    (onFinalTranscript orchStart "hello").pendingGen = orchStart.pendingGen + 1 :=
  ⟨by decide, onFinalTranscript_always_starts orchStart "hello" (by decide)⟩

/-! ## Claim C7 -/

/-- C7 counterexample: creating a session for a call id that is already
present does not fail with a duplicate-session error and does not leave
the existing session's state in place — the source's `createSession`
unconditionally `sessions.set`s a fresh session, replacing the old
one. -/
theorem createSession_replaces :
    ¬ mapGet "c1" (createSession regEx "c1" "new prompt" none).2 = some sessionOldEx := by
  decide

/-- C7 (amended): `createSession` never fails: for every registry state
already containing the call id, it returns a fresh session and replaces
the registry entry with it, discarding the previously registered
session's state. -/
theorem createSession_overwrites (reg : SessionReg) (callId prompt : String)
    (v : Option String) (sOld : Session) (_hpresent : mapGet callId reg = some sOld) :
    (createSession reg callId prompt v).1 = freshSession callId prompt v ∧
    mapGet callId (createSession reg callId prompt v).2 = some (freshSession callId prompt v) := by
  refine ⟨rfl, ?_⟩
  simp [createSession, mapGet_mapSet]

/-- Witness for the amended C7 theorem on a concrete populated
registry. -/
theorem createSession_overwrites_witness :
    mapGet "c1" regEx = some sessionOldEx ∧
    ((createSession regEx "c1" "new prompt" none).1 = freshSession "c1" "new prompt" none ∧
     mapGet "c1" (createSession regEx "c1" "new prompt" none).2 =
       some (freshSession "c1" "new prompt" none)) :=
  ⟨by decide, createSession_overwrites regEx "c1" "new prompt" none sessionOldEx (by decide)⟩

/-! ## Claim C9 -/

/-- C9: when the generation provider fails, `callLLM` substitutes the
fixed apology utterance, and the flow continues: the apology is appended
as the agent turn of the conversation context (for every session state
and every failure). -/
theorem generation_failure_apology (s : Session) (err : String)
    (tts : Option (List Nat)) (postTTSFlag : Bool) (flagAt : Nat → Bool) :
    callLLM (Except.error err) = apologyText ∧
    (handleUserMessage s (Except.error err) tts postTTSFlag flagAt).1.context =
      s.context ++ [⟨"model", apologyText⟩] := by
  refine ⟨rfl, ?_⟩
  unfold handleUserMessage
  simp [speakWithInterruption_context, callLLM, appendToContext]

/-! ## Claim C2 -/

/-- C2 counterexample: a further significant interim event arriving
after the trip is not free of effects — it emits no clear message, but
it still mutates the session (the stored interim transcript changes
from `"wait!"` to `"wait wait"`). -/
theorem interim_after_trip_has_effect :
    ¬ ((handleTranscriptInterim sessionTrippedEx "wait wait").1 = sessionTrippedEx ∧
       (handleTranscriptInterim sessionTrippedEx "wait wait").2 = []) := by
  decide

/-- C2 (amended): while the agent is speaking, a non-blank interim
transcript longer than the significance threshold trips the
interruption path — agent-speaking flag cleared, buffered chunks
discarded, exactly one clear control message emitted — and afterwards,
until the agent speaks again, further interim events emit nothing and
leave the agent-speaking flag, the chunk buffer and the user-speech
flag unchanged; only the stored last-interim transcript is still
updated. -/
theorem interim_trip_idempotent (s : Session) (t : String)
    (harmed : s.isAISpeaking = true) (hblank : jsBlank t = false)
    (hlen : t.length > 3) :
    (handleTranscriptInterim s t).1.isAISpeaking = false ∧
    (handleTranscriptInterim s t).1.currentAudioChunks = [] ∧
    (handleTranscriptInterim s t).1.userSpeechDetected = true ∧
    (handleTranscriptInterim s t).2 = [TwilioMsg.clear s.streamSid] ∧
    (∀ u : String,
       (handleTranscriptInterim (handleTranscriptInterim s t).1 u).2 = [] ∧
       (handleTranscriptInterim (handleTranscriptInterim s t).1 u).1.isAISpeaking = false ∧
       (handleTranscriptInterim (handleTranscriptInterim s t).1 u).1.currentAudioChunks = [] ∧
       (handleTranscriptInterim (handleTranscriptInterim s t).1 u).1.userSpeechDetected = true) := by
  have htrip :
      handleTranscriptInterim s t =
        ({ s with interimTranscript := t, isAISpeaking := false,
                  currentAudioChunks := [], userSpeechDetected := true },
         [TwilioMsg.clear s.streamSid]) := by
    simp [handleTranscriptInterim, hblank, harmed, hlen, handleInterruption]
  refine ⟨by simp [htrip], by simp [htrip], by simp [htrip], by simp [htrip], ?_⟩
  intro u
  rw [htrip]
  by_cases hu : jsBlank u
  · simp [handleTranscriptInterim, hu]
  · simp [handleTranscriptInterim, hu]

/-- Witness for the amended C2 theorem: a concrete armed session tripped
by the interim transcript `"wait!"`. -/
theorem interim_trip_idempotent_witness :
    sessionArmedEx.isAISpeaking = true ∧
    ((handleTranscriptInterim sessionArmedEx "wait!").1.isAISpeaking = false ∧
     (handleTranscriptInterim sessionArmedEx "wait!").1.currentAudioChunks = [] ∧
     (handleTranscriptInterim sessionArmedEx "wait!").1.userSpeechDetected = true ∧
     (handleTranscriptInterim sessionArmedEx "wait!").2 =
       [TwilioMsg.clear sessionArmedEx.streamSid] ∧
     (∀ u : String,
        (handleTranscriptInterim (handleTranscriptInterim sessionArmedEx "wait!").1 u).2 = [] ∧
        (handleTranscriptInterim
            (handleTranscriptInterim sessionArmedEx "wait!").1 u).1.isAISpeaking = false ∧
        (handleTranscriptInterim
            (handleTranscriptInterim sessionArmedEx "wait!").1 u).1.currentAudioChunks = [] ∧
        (handleTranscriptInterim
            (handleTranscriptInterim sessionArmedEx "wait!").1 u).1.userSpeechDetected = true)) :=
  ⟨by decide, interim_trip_idempotent sessionArmedEx "wait!" (by decide) (by decide) (by decide)⟩

/-! ## Claim C3 -/

/-- C3: the framer re-reads the interruption flag before each 214-char
chunk; with the flag monotone (a trip is not un-tripped during a send)
and set by the check before frame `i`, the frames actually emitted are
exactly the first `k ≤ i` chunks — frames `i, i+1, …` are never sent. -/
theorem framer_rechecks_and_aborts (flagAt : Nat → Bool)
    (s : Session) (sid : String) (buf : List Nat) (i : Nat)
    (hsid : s.streamSid = some sid) (hready : s.isReady = true)
    (hi : flagAt i = true) :
    ∃ k, k ≤ i ∧
      (sendAudioToTwilio flagAt s buf).2.filter TwilioMsg.isMedia =
        ((chunksOf 214 (base64Encode buf)).take k).map (TwilioMsg.media sid) := by
  obtain ⟨k, hk, hflags, hend, hmsgs, hdone⟩ :=
    sendLoop_spec flagAt sid (chunksOf 214 (base64Encode buf)) 0
  have hki : k ≤ i := by
    by_contra hgt
    push_neg at hgt
    have hfi := hflags i hgt
    rw [Nat.zero_add, hi] at hfi
    exact Bool.noConfusion hfi
  refine ⟨k, hki, ?_⟩
  have hsnd :
      (sendAudioToTwilio flagAt s buf).2 =
        (sendLoop flagAt sid (chunksOf 214 (base64Encode buf)) 0).1 := by
    unfold sendAudioToTwilio
    rw [hsid]
    simp only [hready, if_true]
    split <;> rfl
  rw [hsnd, hmsgs]
  rw [List.filter_append]
  have hmedia :
      ∀ l : List (List Char),
        (l.map (TwilioMsg.media sid)).filter TwilioMsg.isMedia =
          l.map (TwilioMsg.media sid) := by
    intro l
    induction l with
    | nil => rfl
    | cons x xs ih => simp [TwilioMsg.isMedia, ih]
  rw [hmedia]
  split <;> simp [TwilioMsg.isMedia]

/-- Witness for the C3 theorem: flag trips from check 1 on; at most one
frame of the three-byte buffer goes out. -/
theorem framer_rechecks_and_aborts_witness :
    ∃ k, k ≤ 1 ∧
      (sendAudioToTwilio (fun j => decide (1 ≤ j)) sessionReadyEx [0, 1, 2]).2.filter
          TwilioMsg.isMedia =
        ((chunksOf 214 (base64Encode [0, 1, 2])).take k).map (TwilioMsg.media "MS7003") :=
  framer_rechecks_and_aborts (fun j => decide (1 ≤ j))
    sessionReadyEx "MS7003" [0, 1, 2] 1 (by decide) (by decide) (by decide)

/-! ## Claim C6 -/

/-- C6: format detection is a total deterministic function: every byte
buffer (empty and short ones included) maps to exactly one of the three
pipeline outcomes; the result depends only on the first four bytes (so
re-running it is idempotent); and a buffer with no recognizable
signature falls back to raw linear PCM interpreted as 24 kHz mono
16-bit signed little-endian. -/
theorem detection_total_deterministic :
    (∀ b : List Nat, ∃! o : PipelineOutcome, formatOutcome (detectAudioFormat b) = o) ∧
    (∀ b c : List Nat, b.take 4 = c.take 4 → detectAudioFormat b = detectAudioFormat c) ∧
    (∀ b : List Nat, hasRecognizedSignature b = false →
       formatOutcome (detectAudioFormat b) = PipelineOutcome.rawPCM ∧
       rawFallbackParams (detectAudioFormat b) = some (24000, 1, 16)) := by
  refine ⟨?_, ?_, ?_⟩
  · intro b
    exact ⟨formatOutcome (detectAudioFormat b), rfl, fun y hy => hy.symm⟩
  · intro b c h
    have hlen : min 4 b.length = min 4 c.length := by
      have := congrArg List.length h
      simpa using this
    have hlt : b.length < 4 ↔ c.length < 4 := by omega
    have hgd : ∀ i, i < 4 → b.getD i 0 = c.getD i 0 := by
      intro i hi
      rw [List.getD_eq_getElem?_getD, List.getD_eq_getElem?_getD,
        ← List.getElem?_take_of_lt (l := b) hi, ← List.getElem?_take_of_lt (l := c) hi, h]
    unfold detectAudioFormat
    by_cases hb : b.length < 4
    · rw [if_pos hb, if_pos (hlt.mp hb)]
    · rw [if_neg hb, if_neg (fun hc => hb (hlt.mpr hc))]
      rw [hgd 0 (by omega), hgd 1 (by omega), hgd 2 (by omega), hgd 3 (by omega)]
  · intro b hsig
    rw [hasRecognizedSignature, decide_eq_false_iff_not] at hsig
    by_cases hlen : b.length < 4
    · simp [detectAudioFormat, hlen, formatOutcome, rawFallbackParams]
    · have hA : ¬ (b.getD 0 0 = 0x49 ∧ b.getD 1 0 = 0x44 ∧ b.getD 2 0 = 0x33) :=
        fun hc => hsig ⟨hlen, Or.inl hc⟩
      have hB : ¬ (b.getD 0 0 = 0xFF ∧ b.getD 1 0 &&& 0xE0 = 0xE0) :=
        fun hc => hsig ⟨hlen, Or.inr (Or.inl hc)⟩
      have hC : ¬ (b.getD 0 0 = 0x52 ∧ b.getD 1 0 = 0x49 ∧ b.getD 2 0 = 0x46 ∧
          b.getD 3 0 = 0x46) :=
        fun hc => hsig ⟨hlen, Or.inr (Or.inr hc)⟩
      unfold detectAudioFormat
      rw [if_neg hlen]
      simp only []
      rw [if_neg hA, if_neg hB, if_neg hC]
      exact ⟨rfl, rfl⟩

/-- Witness for the C6 theorem on concrete buffers: determinism applied
to a short buffer and its duplicate, and the fallback applied to a
signature-free buffer. -/
theorem detection_total_deterministic_witness :
    detectAudioFormat [0x49, 0x44] = detectAudioFormat [0x49, 0x44] ∧
    (formatOutcome (detectAudioFormat [0, 0, 0, 0]) = PipelineOutcome.rawPCM ∧
     rawFallbackParams (detectAudioFormat [0, 0, 0, 0]) = some (24000, 1, 16)) :=
  ⟨detection_total_deterministic.2.1 [0x49, 0x44] [0x49, 0x44] (by decide),
   detection_total_deterministic.2.2 [0, 0, 0, 0] (by decide)⟩

/-! ## Claim C8 -/

/-- C8: on a non-blank final transcript, the session clears the pending
silence timer and appends the user turn; a successful generation
appends the reply as the agent turn immediately after, so a session
with empty context ends with exactly `[{user, t}, {agent, reply}]`; and
(for a non-empty synthesized buffer, with no interruption) at least one
audio frame followed by exactly one completion mark is emitted while
the session is still in the speaking state, which only the
`audio_complete` mark echo then ends. -/
theorem final_transcript_flow (s : Session) (sid : String) (t reply : String)
    (buf : List Nat) (hctx : s.context = []) (hsid : s.streamSid = some sid)
    (hready : s.isReady = true) (hblank : jsBlank t = false) (hbuf : buf ≠ []) :
    (processFinalTranscript s t (Except.ok reply) (some buf) false (fun _ => false)).1.context =
      [⟨"user", t⟩, ⟨"model", reply⟩] ∧
    (processFinalTranscript s t (Except.ok reply) (some buf) false
        (fun _ => false)).1.silenceTimer = false ∧
    (∃ frames : List (List Char), frames ≠ [] ∧
       (processFinalTranscript s t (Except.ok reply) (some buf) false (fun _ => false)).2 =
         frames.map (TwilioMsg.media sid) ++ [TwilioMsg.mark sid "audio_complete"]) ∧
    (processFinalTranscript s t (Except.ok reply) (some buf) false
        (fun _ => false)).1.isAISpeaking = true ∧
    (handleMarkEvent (processFinalTranscript s t (Except.ok reply) (some buf) false
        (fun _ => false)).1 "audio_complete").isAISpeaking = false := by
  have key :
      processFinalTranscript s t (Except.ok reply) (some buf) false (fun _ => false) =
        ({ s with silenceTimer := false
                  context := s.context ++ [⟨"user", t⟩] ++ [⟨"model", reply⟩]
                  isAISpeaking := true
                  userSpeechDetected := false
                  currentAudioChunks := s.currentAudioChunks ++ [buf] },
         (chunksOf 214 (base64Encode buf)).map (TwilioMsg.media sid) ++
           [TwilioMsg.mark sid "audio_complete"]) := by
    simp [processFinalTranscript, hblank, handleUserMessage, callLLM, appendToContext,
      speakWithInterruption, beginSpeaking, sendAudioToTwilio, hsid, hready,
      sendLoop_all_false]
  refine ⟨?_, ?_, ?_, ?_, ?_⟩
  · rw [key]; simp [hctx]
  · rw [key]
  · exact ⟨chunksOf 214 (base64Encode buf),
      chunksOf_ne_nil 214 (base64Encode buf) (base64Encode_ne_nil buf hbuf),
      by rw [key]⟩
  · rw [key]
  · rw [key]; rfl

/-- Witness for the C8 theorem: final transcript `"hello"`, generated
reply `"Hi there"`, a three-byte synthesized buffer. -/
theorem final_transcript_flow_witness :
    (processFinalTranscript sessionC8Ex "hello" (Except.ok "Hi there") (some [1, 2, 3]) false
        (fun _ => false)).1.context = [⟨"user", "hello"⟩, ⟨"model", "Hi there"⟩] ∧
    (processFinalTranscript sessionC8Ex "hello" (Except.ok "Hi there") (some [1, 2, 3]) false
        (fun _ => false)).1.silenceTimer = false ∧
    (∃ frames : List (List Char), frames ≠ [] ∧
       (processFinalTranscript sessionC8Ex "hello" (Except.ok "Hi there") (some [1, 2, 3]) false
           (fun _ => false)).2 =
         frames.map (TwilioMsg.media "MS7008") ++ [TwilioMsg.mark "MS7008" "audio_complete"]) ∧
    (processFinalTranscript sessionC8Ex "hello" (Except.ok "Hi there") (some [1, 2, 3]) false
        (fun _ => false)).1.isAISpeaking = true ∧
    (handleMarkEvent (processFinalTranscript sessionC8Ex "hello" (Except.ok "Hi there")
        (some [1, 2, 3]) false (fun _ => false)).1 "audio_complete").isAISpeaking = false :=
  final_transcript_flow sessionC8Ex "MS7008" "hello" "Hi there" [1, 2, 3]
    (by decide) (by decide) (by decide) (by decide) (by decide)

/-! ## Claim C10 -/

/-- C10: (a) an inbound media message with a non-empty decoded payload
sets the session's user-speech flag, with no condition on transcripts
or thresholds; (b) beginning playback of a reply resets that flag; and
(c) the framer aborts on it: if the flag reads true at the check before
chunk `i` of a reply that has at least `i + 1` chunks, at most `i`
audio frames of the reply are emitted and no completion mark is emitted
for it. -/
theorem media_sets_flag_and_aborts_reply :
    (∀ (s : Session) (payload : List Nat), s.hasSttStream = true → payload ≠ [] →
       (handleMediaEvent s payload).userSpeechDetected = true) ∧
    (∀ s : Session, (beginSpeaking s).userSpeechDetected = false) ∧
    (∀ (flagAt : Nat → Bool) (s : Session) (sid : String) (buf : List Nat) (i : Nat),
       s.streamSid = some sid → s.isReady = true → flagAt i = true →
       i < (chunksOf 214 (base64Encode buf)).length →
       (sendAudioToTwilio flagAt s buf).2.countP TwilioMsg.isMedia ≤ i ∧
       (sendAudioToTwilio flagAt s buf).2.filter TwilioMsg.isMark = []) := by
  refine ⟨?_, ?_, ?_⟩
  · intro s payload hstt hpl
    simp [handleMediaEvent, hstt, hpl]
  · intro s
    rfl
  · intro flagAt s sid buf i hsid hready hi hilen
    obtain ⟨k, hk, hflags, hend, hmsgs, hdone⟩ :=
      sendLoop_spec flagAt sid (chunksOf 214 (base64Encode buf)) 0
    have hki : k ≤ i := by
      by_contra hgt
      push_neg at hgt
      have hfi := hflags i hgt
      rw [Nat.zero_add, hi] at hfi
      exact Bool.noConfusion hfi
    have hklen : ¬ k = (chunksOf 214 (base64Encode buf)).length := by omega
    have hsnd :
        (sendAudioToTwilio flagAt s buf).2 =
          (sendLoop flagAt sid (chunksOf 214 (base64Encode buf)) 0).1 := by
      unfold sendAudioToTwilio
      rw [hsid]
      simp only [hready, if_true]
      split <;> rfl
    have hcount :
        ∀ l : List (List Char),
          (l.map (TwilioMsg.media sid)).countP TwilioMsg.isMedia = l.length := by
      intro l
      induction l with
      | nil => rfl
      | cons x xs ih => simp [List.countP_cons, TwilioMsg.isMedia, ih]
    have hmark :
        ∀ l : List (List Char),
          (l.map (TwilioMsg.media sid)).filter TwilioMsg.isMark = [] := by
      intro l
      induction l with
      | nil => rfl
      | cons x xs ih => simp [TwilioMsg.isMark, ih]
    rw [hsnd, hmsgs, if_neg hklen]
    constructor
    · rw [List.append_nil, hcount, List.length_take]
      omega
    · rw [List.append_nil, hmark]

/-- Witness for the C10 theorem: a one-byte media payload sets the
flag; with the flag already set at check 0, the three-byte reply (one
chunk) sends no frames and no completion mark. -/
theorem media_sets_flag_and_aborts_reply_witness :
    (handleMediaEvent sessionMediaEx [7]).userSpeechDetected = true ∧
    (beginSpeaking sessionMediaEx).userSpeechDetected = false ∧
    ((sendAudioToTwilio (fun _ => true) sessionMediaEx [0, 1, 2]).2.countP
        TwilioMsg.isMedia ≤ 0 ∧
     (sendAudioToTwilio (fun _ => true) sessionMediaEx [0, 1, 2]).2.filter
        TwilioMsg.isMark = []) :=
  ⟨media_sets_flag_and_aborts_reply.1 sessionMediaEx [7] (by decide) (by decide),
   media_sets_flag_and_aborts_reply.2.1 sessionMediaEx,
   media_sets_flag_and_aborts_reply.2.2 (fun _ => true) sessionMediaEx "MS7010"
     [0, 1, 2] 0 (by decide) (by decide) (by decide) (by decide)⟩

end Sarvamziya
